import Mathlib

/-!
Verification of the `autopilotpattern/mysql` ContainerPilot handlers
(`bin/manage.py`): role resolution with per-process caching, the one-shot
initialization gate, the failover change handler, and the backup scheduler.

External collaborators (the MySQL client, the Consul client, the Manta
object store, the filesystem lock primitives) are modelled as explicit
environment records: each field records the answer or exception that the
collaborator would produce for the one call the handler makes to it during
a single invocation.  The handlers themselves are translated directly from
the Python control flow.
-/

namespace AutopilotMySQL

/-- The three role values from `manager.utils`: PRIMARY, REPLICA, UNASSIGNED. -/
inductive Role
  | PRIMARY
  | REPLICA
  | UNASSIGNED
deriving DecidableEq, Repr

/-- The exception classes caught at the MySQL step of `Node.is_primary`
(line 64): `MySQLError`, `WaitTimeoutError`, `UnknownPrimary`. -/
inductive DbErr
  | mysqlError
  | waitTimeoutError
  | unknownPrimary
deriving DecidableEq, Repr

/-- Outcome of the `self.mysql.get_primary()` call: either one of the three
caught exceptions, or a `primary_ip` value (`none` models a falsy ip). -/
inductive MySqlPrimaryRes
  | err (e : DbErr)
  | ok (primary_ip : Option String)
deriving DecidableEq, Repr

/-- Outcome of the `self.consul.get_primary()` call: either `UnknownPrimary`
(the only exception caught at that step, line 78), or a `primary_node` value
(`none` models a falsy node name). -/
inductive ConsulPrimaryRes
  | unknownPrimary
  | ok (primary_node : Option String)
deriving DecidableEq, Repr

/-- The node's identity fields set in `Node.__init__`: `self.ip` and
`self.name`. -/
structure NodeId where
  ip : String
  name : String
deriving DecidableEq, Repr

/-- What the two collaborators consulted by `Node.is_primary` would answer
during one resolution pass. -/
structure ResolveEnv where
  mysqlGetPrimary : MySqlPrimaryRes
  consulGetPrimary : ConsulPrimaryRes
deriving DecidableEq, Repr

/-- The body of `Node.is_primary` below the cache check (lines 53-82):
first the MySQL replication-source step, then the Consul recorded-primary
step, else UNASSIGNED.  Returns (answer, state written to `self.cp.state`). -/
def resolveRole (nid : NodeId) (env : ResolveEnv) : Bool × Role :=
  match env.mysqlGetPrimary with
  | MySqlPrimaryRes.ok (some primary_ip) =>
      if primary_ip = nid.ip then (true, Role.PRIMARY)
      else (false, Role.REPLICA)
  | _ =>
      -- `.ok none` falls through; the three caught exceptions are swallowed
      match env.consulGetPrimary with
      | ConsulPrimaryRes.ok (some primary_node) =>
          if primary_node = nid.name then (true, Role.PRIMARY)
          else (false, Role.REPLICA)
      | _ =>
          -- `.ok none` falls through; UnknownPrimary is swallowed
          (false, Role.UNASSIGNED)

/-- `Node.is_primary` (lines 42-82).  Takes the current `self.cp.state` and
returns (answer, new `self.cp.state`, whether any MySQL/Consul I/O ran).
Lines 50-51: a cached non-UNASSIGNED state answers immediately with no I/O. -/
def is_primary (nid : NodeId) (env : ResolveEnv) (st : Role) : Bool × Role × Bool :=
  if st ≠ Role.UNASSIGNED then
    (decide (st = Role.PRIMARY), st, false)
  else
    ((resolveRole nid env).1, (resolveRole nid env).2, true)

/-- `Node.is_replica` (lines 84-86): `return not self.is_primary()`. -/
def is_replica (nid : NodeId) (env : ResolveEnv) (st : Role) : Bool × Role × Bool :=
  ((!(is_primary nid env st).1), (is_primary nid env st).2.1,
    (is_primary nid env st).2.2)

/-- `Node.is_snapshot_node` (lines 88-91): `return self.is_primary()`. -/
def is_snapshot_node (nid : NodeId) (env : ResolveEnv) (st : Role) : Bool × Role × Bool :=
  is_primary nid env st

/-- A sequence of `is_primary` calls on one node, threading the cached
state; each call may face a different external environment.  Returns the
list of (answer, did I/O) pairs and the final cached state. -/
def resolveSeq (nid : NodeId) (envs : List ResolveEnv) (st : Role) :
    List (Bool × Bool) × Role :=
  match envs with
  | [] => ([], st)
  | e :: rest =>
      let r := is_primary nid e st
      let tl := resolveSeq nid rest r.2.1
      ((r.1, r.2.2) :: tl.1, tl.2)

/-- The answer of a resolution pass agrees with the state it caches. -/
theorem resolveRole_consistent (nid : NodeId) (env : ResolveEnv) :
    (resolveRole nid env).1 = decide ((resolveRole nid env).2 = Role.PRIMARY) := by
  unfold resolveRole
  rcases env with ⟨m, c⟩
  rcases m with e | ip
  · rcases c with _ | nm
    · simp
    · rcases nm with _ | nm
      · simp
      · by_cases h : nm = nid.name <;> simp [h]
  · rcases ip with _ | ip
    · rcases c with _ | nm
      · simp
      · rcases nm with _ | nm
        · simp
        · by_cases h : nm = nid.name <;> simp [h]
    · by_cases h : ip = nid.ip <;> simp [h]

/-- C1 theorem: role resolution precedence when the cached state is
UNASSIGNED.  The MySQL replication-source step is consulted first (own ip:
PRIMARY; other ip: REPLICA); when it reports no source or raises any of the
caught exceptions, the Consul recorded-primary step decides (own name:
PRIMARY; other name: REPLICA); otherwise the role stays UNASSIGNED.  In
particular an unreachable database together with Consul naming another node
yields REPLICA. -/
theorem is_primary_resolution_precedence (nid : NodeId) (env : ResolveEnv) :
    (∀ ip, env.mysqlGetPrimary = MySqlPrimaryRes.ok (some ip) → ip = nid.ip →
      is_primary nid env Role.UNASSIGNED = (true, Role.PRIMARY, true)) ∧
    (∀ ip, env.mysqlGetPrimary = MySqlPrimaryRes.ok (some ip) → ip ≠ nid.ip →
      is_primary nid env Role.UNASSIGNED = (false, Role.REPLICA, true)) ∧
    ((env.mysqlGetPrimary = MySqlPrimaryRes.ok none ∨
      (∃ e, env.mysqlGetPrimary = MySqlPrimaryRes.err e)) →
      (∀ nm, env.consulGetPrimary = ConsulPrimaryRes.ok (some nm) → nm = nid.name →
        is_primary nid env Role.UNASSIGNED = (true, Role.PRIMARY, true)) ∧
      (∀ nm, env.consulGetPrimary = ConsulPrimaryRes.ok (some nm) → nm ≠ nid.name →
        is_primary nid env Role.UNASSIGNED = (false, Role.REPLICA, true)) ∧
      ((env.consulGetPrimary = ConsulPrimaryRes.ok none ∨
        env.consulGetPrimary = ConsulPrimaryRes.unknownPrimary) →
        is_primary nid env Role.UNASSIGNED = (false, Role.UNASSIGNED, true))) ∧
    (∀ e nm, env.mysqlGetPrimary = MySqlPrimaryRes.err e →
      env.consulGetPrimary = ConsulPrimaryRes.ok (some nm) → nm ≠ nid.name →
      (is_primary nid env Role.UNASSIGNED).1 = false ∧
      (is_primary nid env Role.UNASSIGNED).2.1 = Role.REPLICA) := by
  rcases env with ⟨m, c⟩
  refine ⟨?_, ?_, ?_, ?_⟩
  · intro ip hm hip
    subst hm; subst hip
    simp [is_primary, resolveRole]
  · intro ip hm hip
    subst hm
    simp [is_primary, resolveRole, hip]
  · intro hm
    refine ⟨?_, ?_, ?_⟩
    · intro nm hc hnm
      rcases hm with hm | ⟨e, hm⟩ <;> subst hm <;> subst hc <;>
        simp [is_primary, resolveRole, hnm]
    · intro nm hc hnm
      rcases hm with hm | ⟨e, hm⟩ <;> subst hm <;> subst hc <;>
        simp [is_primary, resolveRole, hnm]
    · intro hc
      rcases hm with hm | ⟨e, hm⟩ <;> rcases hc with hc | hc <;>
        subst hm <;> subst hc <;> simp [is_primary, resolveRole]
  · intro e nm hm hc hnm
    subst hm; subst hc
    simp [is_primary, resolveRole, hnm]

/-- C1 witness: node "10.0.0.1"/"mysql-node-1" with an unreachable database
and Consul reporting "mysql-node-2" as primary resolves to REPLICA. -/
theorem is_primary_resolution_precedence_witness :
    (is_primary ⟨"10.0.0.1", "mysql-node-1"⟩
        ⟨MySqlPrimaryRes.err DbErr.mysqlError,
         ConsulPrimaryRes.ok (some "mysql-node-2")⟩ Role.UNASSIGNED).1 = false ∧
    (is_primary ⟨"10.0.0.1", "mysql-node-1"⟩
        ⟨MySqlPrimaryRes.err DbErr.mysqlError,
         ConsulPrimaryRes.ok (some "mysql-node-2")⟩ Role.UNASSIGNED).2.1 =
      Role.REPLICA :=
  (is_primary_resolution_precedence ⟨"10.0.0.1", "mysql-node-1"⟩
      ⟨MySqlPrimaryRes.err DbErr.mysqlError,
       ConsulPrimaryRes.ok (some "mysql-node-2")⟩).2.2.2
    DbErr.mysqlError "mysql-node-2" rfl rfl (by decide)

/-- C2 theorem: once PRIMARY or REPLICA is cached in the node state, every
subsequent `is_primary` call in any sequence and under any external
environments returns the same fixed answer, performs no MySQL/Consul I/O,
and leaves the cached state unchanged (until an explicit reset to
UNASSIGNED, which is the only way the state field changes outside
resolution). -/
theorem is_primary_cached_role_stable (nid : NodeId) (envs : List ResolveEnv) :
    resolveSeq nid envs Role.PRIMARY =
      (envs.map (fun _ => (true, false)), Role.PRIMARY) ∧
    resolveSeq nid envs Role.REPLICA =
      (envs.map (fun _ => (false, false)), Role.REPLICA) := by
  induction envs with
  | nil => simp [resolveSeq]
  | cons e rest ih =>
      refine ⟨?_, ?_⟩ <;>
        simp [resolveSeq, is_primary, ih.1, ih.2]

/-! ## Initialization: `assert_initialized_for_state`, `run_as_primary`,
`run_as_replica` (lines 364-455) -/

/-- The exception classes caught around `run_as_replica` (line 405):
`UnknownPrimary` and `MySQLError`. -/
inductive ReplErr
  | unknownPrimary
  | mysqlError
deriving DecidableEq, Repr

/-- `consul.mark_as_primary(name)`: an atomic set-if-absent claim on the
primary designation key of the linearizable coordination store.  Returns
the store afterwards and whether the claim succeeded. -/
def mark_as_primary (store : Option String) (name : String) :
    Option String × Bool :=
  match store with
  | none => (some name, true)
  | some v => (some v, false)

/-- How a call to `run_as_primary` ends: `return False` (claim lost, line
421), a `MySQLError` escaping the bootstrap steps or `write_snapshot`,
or `return True`. -/
inductive PrimRunRes
  | returnedFalse
  | raisedMySQLError
  | returnedTrue
deriving DecidableEq, Repr

/-- `run_as_primary` (lines 413-442): claim the primary designation; on
failure return False with no state change.  On success set
`node.cp.state = PRIMARY`, then run the first-boot or promoted-primary
setup and `write_snapshot`; `bootstrapErr` records whether a `MySQLError`
escapes these steps.  Returns (result, new node state, new claim store). -/
def run_as_primary (store : Option String) (name : String)
    (bootstrapErr : Bool) (st : Role) : PrimRunRes × Role × Option String :=
  let claim := mark_as_primary store name
  if !claim.2 then (PrimRunRes.returnedFalse, st, claim.1)
  else if bootstrapErr then (PrimRunRes.raisedMySQLError, Role.PRIMARY, claim.1)
  else (PrimRunRes.returnedTrue, Role.PRIMARY, claim.1)

/-- Environment of one `assert_initialized_for_state` invocation. -/
structure InitEnv where
  /-- whether `/var/run/init.lock` already exists (so `os.mkdir` raises). -/
  markerExists : Bool
  /-- answers for the `is_primary` resolution pass. -/
  renv : ResolveEnv
  /-- the primary-designation claim key before this invocation. -/
  claimStore : Option String
  /-- whether a `MySQLError` escapes the primary bootstrap steps. -/
  primaryBootstrapErr : Bool
  /-- error raised by `run_as_replica` (consul lookup or replication
  setup), if any. -/
  replicaErr : Option ReplErr
deriving DecidableEq, Repr

/-- How the invocation ends: `return True` (already initialized),
`return False` (bootstrap ran; possibly after a config update/reload),
or `sys.exit(1)`. -/
inductive InitOutcome
  | alreadyInitialized
  | proceed
  | exitNonZero
deriving DecidableEq, Repr

/-- Observable result of one `assert_initialized_for_state` invocation. -/
structure InitResult where
  outcome : InitOutcome
  /-- whether `/var/run/init.lock` exists after the invocation. -/
  markerPresent : Bool
  /-- whether the `run_as_primary` path was entered. -/
  ranPrimaryPath : Bool
  /-- whether the `run_as_replica` path was entered. -/
  ranReplicaBootstrap : Bool
  finalState : Role
  claimStore : Option String
deriving DecidableEq, Repr

/-- `assert_initialized_for_state` (lines 364-410).  A pre-existing marker
returns True at once; otherwise the marker is created, the role resolved,
and the primary path is taken when the node resolved primary or stayed
UNASSIGNED, the replica path otherwise.  Every failure (`run_as_primary`
returning False, a `MySQLError` on the primary path, `UnknownPrimary` or
`MySQLError` on the replica path) removes the marker via `os.rmdir` and
exits non-zero.  `run_as_replica` (lines 444-455) sets
`node.cp.state = REPLICA` before its fallible consul lookup. -/
def assert_initialized_for_state (nid : NodeId) (e : InitEnv) (st : Role) :
    InitResult :=
  if e.markerExists then
    ⟨InitOutcome.alreadyInitialized, true, false, false, st, e.claimStore⟩
  else
    let r := is_primary nid e.renv st
    if r.1 || decide (r.2.1 = Role.UNASSIGNED) then
      match run_as_primary e.claimStore nid.name e.primaryBootstrapErr r.2.1 with
      | (PrimRunRes.returnedFalse, st2, store2) =>
          ⟨InitOutcome.exitNonZero, false, true, false, st2, store2⟩
      | (PrimRunRes.raisedMySQLError, st2, store2) =>
          ⟨InitOutcome.exitNonZero, false, true, false, st2, store2⟩
      | (PrimRunRes.returnedTrue, st2, store2) =>
          ⟨InitOutcome.proceed, true, true, false, st2, store2⟩
    else
      match e.replicaErr with
      | some _ =>
          ⟨InitOutcome.exitNonZero, false, false, true, Role.REPLICA, e.claimStore⟩
      | none =>
          ⟨InitOutcome.proceed, true, false, true, Role.REPLICA, e.claimStore⟩

/-- Two invocations racing to claim the primary designation, serialized by
the linearizable store: the first CAS runs, then the second over the
resulting store.  Returns (final store, first won, second won). -/
def primary_claim_race (store : Option String) (n1 n2 : String) :
    Option String × Bool × Bool :=
  let c1 := mark_as_primary store n1
  let c2 := mark_as_primary c1.1 n2
  (c2.1, c1.2, c2.2)

/-- C9 theorem: a pre-existing init marker makes the gate a no-op: it
reports already-initialized, runs neither bootstrap path, and leaves the
node state and claim store untouched. -/
theorem init_marker_exists_noop (nid : NodeId) (renv : ResolveEnv)
    (cs : Option String) (pbe : Bool) (re : Option ReplErr) (st : Role) :
    assert_initialized_for_state nid ⟨true, renv, cs, pbe, re⟩ st =
      ⟨InitOutcome.alreadyInitialized, true, false, false, st, cs⟩ := by
  simp [assert_initialized_for_state]

/-- C4 theorem: when first-run initialization fails after the marker was
created — the atomic claim is lost (the claim key already held), the
primary bootstrap raises a database error, or the replica bootstrap raises
— the invocation exits non-zero with the marker removed; in general every
non-zero exit of the gate leaves the marker absent. -/
theorem init_failure_removes_marker (nid : NodeId) (e : InitEnv) (st : Role) :
    (e.markerExists = false →
      (assert_initialized_for_state nid e st).outcome = InitOutcome.exitNonZero →
      (assert_initialized_for_state nid e st).markerPresent = false) ∧
    (∀ owner, e.markerExists = false → e.claimStore = some owner →
      ((is_primary nid e.renv st).1 = true ∨
        (is_primary nid e.renv st).2.1 = Role.UNASSIGNED) →
      (assert_initialized_for_state nid e st).outcome = InitOutcome.exitNonZero ∧
      (assert_initialized_for_state nid e st).markerPresent = false) ∧
    (e.markerExists = false → e.primaryBootstrapErr = true →
      ((is_primary nid e.renv st).1 = true ∨
        (is_primary nid e.renv st).2.1 = Role.UNASSIGNED) →
      (assert_initialized_for_state nid e st).outcome = InitOutcome.exitNonZero ∧
      (assert_initialized_for_state nid e st).markerPresent = false) ∧
    (∀ err, e.markerExists = false → e.replicaErr = some err →
      (is_primary nid e.renv st).1 = false →
      (is_primary nid e.renv st).2.1 ≠ Role.UNASSIGNED →
      (assert_initialized_for_state nid e st).outcome = InitOutcome.exitNonZero ∧
      (assert_initialized_for_state nid e st).markerPresent = false) := by
  refine ⟨?_, ?_, ?_, ?_⟩
  · intro hm
    simp only [assert_initialized_for_state, hm, if_false, Bool.false_eq_true]
    split
    · split <;> intro h <;> simp_all
    · split <;> intro h <;> simp_all
  · intro owner hm hcs hrole
    simp only [assert_initialized_for_state, hm, if_false, Bool.false_eq_true]
    have hcond : ((is_primary nid e.renv st).1 ||
        decide ((is_primary nid e.renv st).2.1 = Role.UNASSIGNED)) = true := by
      rcases hrole with h | h <;> simp [h]
    rw [hcond]
    simp [run_as_primary, mark_as_primary, hcs]
  · intro hm hpbe hrole
    simp only [assert_initialized_for_state, hm, if_false, Bool.false_eq_true]
    have hcond : ((is_primary nid e.renv st).1 ||
        decide ((is_primary nid e.renv st).2.1 = Role.UNASSIGNED)) = true := by
      rcases hrole with h | h <;> simp [h]
    rw [hcond]
    rcases hcs : e.claimStore with _ | owner <;>
      simp [run_as_primary, mark_as_primary, hcs, hpbe]
  · intro err hm hre hp hst
    simp only [assert_initialized_for_state, hm, if_false, Bool.false_eq_true]
    have hcond : ((is_primary nid e.renv st).1 ||
        decide ((is_primary nid e.renv st).2.1 = Role.UNASSIGNED)) = false := by
      simp [hp, hst]
    rw [hcond]
    simp [hre]

/-- C4 witness: a node whose resolution stays UNASSIGNED, with the claim
key already owned by "mysql-other", exits non-zero and removes the marker. -/
theorem init_failure_removes_marker_witness :
    (assert_initialized_for_state ⟨"10.0.0.1", "mysql-node-1"⟩
        ⟨false, ⟨MySqlPrimaryRes.ok none, ConsulPrimaryRes.ok none⟩,
         some "mysql-other", false, none⟩ Role.UNASSIGNED).outcome =
      InitOutcome.exitNonZero ∧
    (assert_initialized_for_state ⟨"10.0.0.1", "mysql-node-1"⟩
        ⟨false, ⟨MySqlPrimaryRes.ok none, ConsulPrimaryRes.ok none⟩,
         some "mysql-other", false, none⟩ Role.UNASSIGNED).markerPresent =
      false :=
  (init_failure_removes_marker ⟨"10.0.0.1", "mysql-node-1"⟩
      ⟨false, ⟨MySqlPrimaryRes.ok none, ConsulPrimaryRes.ok none⟩,
       some "mysql-other", false, none⟩ Role.UNASSIGNED).2.1
    "mysql-other" rfl rfl (Or.inr (by decide))

/-- C5 counterexample: with nodes "mysql-a" and "mysql-b" racing from an
empty claim store, "mysql-a" wins and "mysql-b" loses; the loser's
invocation (marker created, role resolution inconclusive, claim key now
held by "mysql-a") exits non-zero with the marker removed and never enters
the replica-bootstrap path — contradicting the claim that the loser
proceeds down replica bootstrap within that same invocation. -/
theorem primary_claim_race_loser_counterexample :
    primary_claim_race none "mysql-a" "mysql-b" =
      (some "mysql-a", true, false) ∧
    (assert_initialized_for_state ⟨"10.0.0.2", "mysql-b"⟩
        ⟨false, ⟨MySqlPrimaryRes.ok none, ConsulPrimaryRes.ok none⟩,
         some "mysql-a", false, none⟩ Role.UNASSIGNED).ranReplicaBootstrap =
      false ∧
    (assert_initialized_for_state ⟨"10.0.0.2", "mysql-b"⟩
        ⟨false, ⟨MySqlPrimaryRes.ok none, ConsulPrimaryRes.ok none⟩,
         some "mysql-a", false, none⟩ Role.UNASSIGNED).outcome =
      InitOutcome.exitNonZero := by
  decide

/-- C5 theorem (amended): of two invocations racing to claim the primary
designation from an empty store, exactly the first-serialized claim
succeeds; the losing invocation — one whose claim attempt finds the key
already held — removes the init marker and exits non-zero without entering
the replica-bootstrap path, deferring replica setup to a later invocation. -/
theorem primary_claim_race_loser_exits (n1 n2 : String) (nid : NodeId)
    (e : InitEnv) (st : Role) :
    (primary_claim_race none n1 n2).2 = (true, false) ∧
    (∀ owner, e.markerExists = false → e.claimStore = some owner →
      ((is_primary nid e.renv st).1 = true ∨
        (is_primary nid e.renv st).2.1 = Role.UNASSIGNED) →
      (assert_initialized_for_state nid e st).outcome = InitOutcome.exitNonZero ∧
      (assert_initialized_for_state nid e st).markerPresent = false ∧
      (assert_initialized_for_state nid e st).ranReplicaBootstrap = false) := by
  constructor
  · simp [primary_claim_race, mark_as_primary]
  · intro owner hm hcs hrole
    simp only [assert_initialized_for_state, hm, if_false, Bool.false_eq_true]
    have hcond : ((is_primary nid e.renv st).1 ||
        decide ((is_primary nid e.renv st).2.1 = Role.UNASSIGNED)) = true := by
      rcases hrole with h | h <;> simp [h]
    rw [hcond]
    simp [run_as_primary, mark_as_primary, hcs]

/-- C5 witness: the loser node "mysql-b" with claim key held by "mysql-a"
exits non-zero, marker removed, replica bootstrap not entered. -/
theorem primary_claim_race_loser_exits_witness :
    (assert_initialized_for_state ⟨"10.0.0.2", "mysql-b"⟩
        ⟨false, ⟨MySqlPrimaryRes.err DbErr.mysqlError, ConsulPrimaryRes.ok none⟩,
         some "mysql-a", false, none⟩ Role.UNASSIGNED).outcome =
      InitOutcome.exitNonZero ∧
    (assert_initialized_for_state ⟨"10.0.0.2", "mysql-b"⟩
        ⟨false, ⟨MySqlPrimaryRes.err DbErr.mysqlError, ConsulPrimaryRes.ok none⟩,
         some "mysql-a", false, none⟩ Role.UNASSIGNED).markerPresent = false ∧
    (assert_initialized_for_state ⟨"10.0.0.2", "mysql-b"⟩
        ⟨false, ⟨MySqlPrimaryRes.err DbErr.mysqlError, ConsulPrimaryRes.ok none⟩,
         some "mysql-a", false, none⟩ Role.UNASSIGNED).ranReplicaBootstrap =
      false :=
  (primary_claim_race_loser_exits "mysql-a" "mysql-b" ⟨"10.0.0.2", "mysql-b"⟩
      ⟨false, ⟨MySqlPrimaryRes.err DbErr.mysqlError, ConsulPrimaryRes.ok none⟩,
       some "mysql-a", false, none⟩ Role.UNASSIGNED).2
    "mysql-a" rfl rfl (Or.inr (by decide))

/-! ## Change handler: `on_change` (lines 164-226) -/

/-- Environment of one `on_change` invocation. -/
structure ChangeEnv where
  /-- answers for the first `is_primary` resolution (line 170). -/
  renv1 : ResolveEnv
  /-- result of `node.cp.update()` in the healthy-primary branch. -/
  cpUpdate1 : Bool
  /-- whether `node.consul.get_primary(timeout=1)` (line 183) finds a
  healthy primary rather than raising `UnknownPrimary`. -/
  consulPrimaryHealthy : Bool
  /-- whether `node.consul.lock(FAILOVER_IN_PROGRESS, ...)` succeeds. -/
  lockAcquired : Bool
  /-- whether enumerating REPLICA candidates or `node.mysql.failover`
  raises (ConsulError, subprocess.CalledProcessError). -/
  failoverRaises : Bool
  /-- answers for the re-resolution after the failover phase (line 216). -/
  renv2 : ResolveEnv
  /-- result of `node.cp.update()` in the post-failover primary branch. -/
  cpUpdate2 : Bool
deriving DecidableEq, Repr

/-- How an `on_change` invocation ends: normal return, an exception
propagating out of the failover attempt (non-zero exit), or the explicit
`sys.exit(1)` when the node is neither primary nor replica afterwards. -/
inductive ChangeOutcome
  | ok
  | raisedError
  | exitNonZero
deriving DecidableEq, Repr

/-- Observable result of one `on_change` invocation. -/
structure ChangeResult where
  outcome : ChangeOutcome
  /-- whether this invocation acquired the failover lock. -/
  lockWasAcquired : Bool
  /-- whether the failover lock was released by this invocation. -/
  lockReleased : Bool
  finalState : Role
  /-- whether PRIMARY_KEY was published with this node's hostname. -/
  publishedPrimary : Bool
deriving DecidableEq, Repr

/-- Lines 213-226 of `on_change`: after the failover phase the cached
state is set to UNASSIGNED and re-resolved; a primary publishes and
reloads; a node still UNASSIGNED exits non-zero; a replica returns. -/
def on_change_after_failover (nid : NodeId) (e : ChangeEnv) (locked : Bool) :
    ChangeResult :=
  let r := is_primary nid e.renv2 Role.UNASSIGNED
  if r.1 then
    ⟨ChangeOutcome.ok, locked, locked, r.2.1, e.cpUpdate2⟩
  else if r.2.1 = Role.UNASSIGNED then
    ⟨ChangeOutcome.exitNonZero, locked, locked, r.2.1, false⟩
  else
    ⟨ChangeOutcome.ok, locked, locked, r.2.1, false⟩

/-- `on_change` (lines 164-226).  A node already primary publishes and
returns; a healthy primary elsewhere means no failover; otherwise the
failover lock is attempted.  With the lock held the failover call runs
inside try/finally, so the lock is released whether or not it raises and
any error propagates (non-zero exit).  Without the lock the handler polls
until the lock clears (the loop is assumed to terminate, as the lock's
session has a TTL).  Both continuing paths then re-resolve the role from
UNASSIGNED. -/
def on_change (nid : NodeId) (e : ChangeEnv) (st : Role) : ChangeResult :=
  let r := is_primary nid e.renv1 st
  if r.1 then
    ⟨ChangeOutcome.ok, false, false, r.2.1, e.cpUpdate1⟩
  else if e.consulPrimaryHealthy then
    ⟨ChangeOutcome.ok, false, false, r.2.1, false⟩
  else if e.lockAcquired then
    if e.failoverRaises then
      -- the finally block releases the lock, then the error propagates
      ⟨ChangeOutcome.raisedError, true, true, r.2.1, false⟩
    else
      on_change_after_failover nid e true
  else
    on_change_after_failover nid e false

/-- C6 theorem: whenever the failover lock is acquired it is released on
every exit path of the failover attempt, and an error raised while
enumerating candidates or executing the database failover still propagates
as a non-zero exit (with the lock released). -/
theorem on_change_lock_released (nid : NodeId) (e : ChangeEnv) (st : Role) :
    ((on_change nid e st).lockWasAcquired = true →
      (on_change nid e st).lockReleased = true) ∧
    ((is_primary nid e.renv1 st).1 = false → e.consulPrimaryHealthy = false →
      e.lockAcquired = true → e.failoverRaises = true →
      (on_change nid e st).outcome = ChangeOutcome.raisedError ∧
      (on_change nid e st).lockReleased = true) := by
  constructor
  · simp only [on_change, on_change_after_failover]
    split
    · simp
    · split
      · simp
      · split
        · split
          · simp
          · split
            · simp
            · split <;> simp
        · split
          · simp
          · split <;> simp
  · intro h1 h2 h3 h4
    simp [on_change, h1, h2, h3, h4]

/-- C6 witness: a cached-REPLICA node with no healthy primary, lock
acquired and the failover call raising, releases the lock and propagates
the error. -/
theorem on_change_lock_released_witness :
    (on_change ⟨"10.0.0.1", "mysql-node-1"⟩
        ⟨⟨MySqlPrimaryRes.ok none, ConsulPrimaryRes.ok none⟩, false, false,
         true, true, ⟨MySqlPrimaryRes.ok none, ConsulPrimaryRes.ok none⟩,
         false⟩ Role.REPLICA).outcome = ChangeOutcome.raisedError ∧
    (on_change ⟨"10.0.0.1", "mysql-node-1"⟩
        ⟨⟨MySqlPrimaryRes.ok none, ConsulPrimaryRes.ok none⟩, false, false,
         true, true, ⟨MySqlPrimaryRes.ok none, ConsulPrimaryRes.ok none⟩,
         false⟩ Role.REPLICA).lockReleased = true :=
  (on_change_lock_released ⟨"10.0.0.1", "mysql-node-1"⟩
      ⟨⟨MySqlPrimaryRes.ok none, ConsulPrimaryRes.ok none⟩, false, false,
       true, true, ⟨MySqlPrimaryRes.ok none, ConsulPrimaryRes.ok none⟩,
       false⟩ Role.REPLICA).2 (by decide) rfl rfl rfl

/-- The post-failover phase always ends with the state produced by a fresh
resolution from UNASSIGNED. -/
theorem on_change_after_failover_finalState (nid : NodeId) (e : ChangeEnv)
    (locked : Bool) :
    (on_change_after_failover nid e locked).finalState =
      (is_primary nid e.renv2 Role.UNASSIGNED).2.1 := by
  simp only [on_change_after_failover]
  split
  · rfl
  · split <;> rfl

/-- If the fresh resolution stays UNASSIGNED, the post-failover phase exits
non-zero. -/
theorem on_change_after_failover_unassigned (nid : NodeId) (e : ChangeEnv)
    (locked : Bool)
    (hu : (is_primary nid e.renv2 Role.UNASSIGNED).2.1 = Role.UNASSIGNED) :
    (on_change_after_failover nid e locked).outcome =
      ChangeOutcome.exitNonZero := by
  have h2 : (resolveRole nid e.renv2).2 = Role.UNASSIGNED := by
    simpa [is_primary] using hu
  have h1 : (resolveRole nid e.renv2).1 = false := by
    rw [resolveRole_consistent, h2]; rfl
  have hp : (is_primary nid e.renv2 Role.UNASSIGNED).1 = false := by
    simp [is_primary, h1]
  simp [on_change_after_failover, hp, hu]

/-- C7 theorem: whenever the failover phase completes (this node either ran
the failover without an error, or waited for another node's lock), the
cached role is reset to UNASSIGNED and re-resolved — the final state is
exactly the result of a fresh resolution from UNASSIGNED, independent of
the previously cached role — and if that re-resolution still yields
UNASSIGNED the invocation exits non-zero. -/
theorem on_change_reresolves_role (nid : NodeId) (e : ChangeEnv) (st : Role) :
    (is_primary nid e.renv1 st).1 = false → e.consulPrimaryHealthy = false →
    (e.lockAcquired = true → e.failoverRaises = false) →
    (on_change nid e st).finalState =
      (is_primary nid e.renv2 Role.UNASSIGNED).2.1 ∧
    ((is_primary nid e.renv2 Role.UNASSIGNED).2.1 = Role.UNASSIGNED →
      (on_change nid e st).outcome = ChangeOutcome.exitNonZero) := by
  intro h1 h2 h3
  rcases hl : e.lockAcquired with _ | _
  · have heq : on_change nid e st = on_change_after_failover nid e false := by
      simp [on_change, h1, h2, hl]
    rw [heq]
    exact ⟨on_change_after_failover_finalState nid e false,
      fun hu => on_change_after_failover_unassigned nid e false hu⟩
  · have h4 := h3 hl
    have heq : on_change nid e st = on_change_after_failover nid e true := by
      simp [on_change, h1, h2, hl, h4]
    rw [heq]
    exact ⟨on_change_after_failover_finalState nid e true,
      fun hu => on_change_after_failover_unassigned nid e true hu⟩

/-- C7 witness: a cached-REPLICA node that waited out another node's
failover and whose re-resolution stays inconclusive exits non-zero with
state UNASSIGNED. -/
theorem on_change_reresolves_role_witness :
    (on_change ⟨"10.0.0.1", "mysql-node-1"⟩
        ⟨⟨MySqlPrimaryRes.ok none, ConsulPrimaryRes.ok none⟩, false, false,
         false, false, ⟨MySqlPrimaryRes.ok none, ConsulPrimaryRes.ok none⟩,
         false⟩ Role.REPLICA).finalState = Role.UNASSIGNED ∧
    (on_change ⟨"10.0.0.1", "mysql-node-1"⟩
        ⟨⟨MySqlPrimaryRes.ok none, ConsulPrimaryRes.ok none⟩, false, false,
         false, false, ⟨MySqlPrimaryRes.ok none, ConsulPrimaryRes.ok none⟩,
         false⟩ Role.REPLICA).outcome = ChangeOutcome.exitNonZero := by
  have h := on_change_reresolves_role ⟨"10.0.0.1", "mysql-node-1"⟩
      ⟨⟨MySqlPrimaryRes.ok none, ConsulPrimaryRes.ok none⟩, false, false,
       false, false, ⟨MySqlPrimaryRes.ok none, ConsulPrimaryRes.ok none⟩,
       false⟩ Role.REPLICA (by decide) rfl (fun hc => by cases hc)
  exact ⟨h.1.trans (by decide), h.2 (by decide)⟩

/-! ## Backup scheduler: `snapshot_task` (lines 229-281) and
`create_snapshot` (lines 295-344) -/

/-- Environment of one `snapshot_task` tick. -/
structure SnapshotTickEnv where
  /-- answers for the `is_snapshot_node` role resolution. -/
  renv : ResolveEnv
  /-- whether the local advisory flock is already held (`is_backup_running`). -/
  backupRunning : Bool
  /-- the `File` field of the first `show master status` row, when the
  query result has such a row and field (`none` models IndexError/KeyError). -/
  masterFile : Option String
  /-- the LAST_BINLOG_KEY value recorded in Consul (`none` when absent). -/
  lastBinlog : Option String
  /-- whether the BACKUP_TTL_KEY health check is currently passing. -/
  ttlPassing : Bool
deriving DecidableEq, Repr

/-- `is_binlog_stale` (lines 255-264): missing row or field counts as
stale; otherwise stale exactly when the current binlog file differs from
the recorded one (a missing Consul record also differs). -/
def is_binlog_stale (masterFile lastBinlog : Option String) : Bool :=
  match masterFile with
  | none => true
  | some binlog_file => decide (some binlog_file ≠ lastBinlog)

/-- `is_time_for_snapshot` (lines 266-271): time for a snapshot exactly
when the TTL check is not passing. -/
def is_time_for_snapshot (ttlPassing : Bool) : Bool :=
  if ttlPassing then false else true

/-- `snapshot_task` (lines 229-281).  Returns (backup ran, the binlog
staleness DB query ran, new node state).  A node not resolving as snapshot
node (i.e. primary), or with a backup already in flight, returns before
any `show master status` query; otherwise a backup runs when the binlog is
stale or the TTL check is not passing. -/
def snapshot_task (nid : NodeId) (e : SnapshotTickEnv) (st : Role) :
    Bool × Bool × Role :=
  let r := is_snapshot_node nid e.renv st
  if !r.1 || e.backupRunning then (false, false, r.2.1)
  else
    ((is_binlog_stale e.masterFile e.lastBinlog ||
      is_time_for_snapshot e.ttlPassing), true, r.2.1)

/-- C3 theorem: on a snapshot tick a backup runs exactly when the node
resolves primary, no backup is in flight under the local advisory lock,
and the current binlog differs from the recorded one or the TTL check is
not passing; the binlog DB query runs only on a primary with no backup in
flight; and with the recorded binlog equal to the current one and the TTL
check passing, no backup runs. -/
theorem snapshot_task_runs_iff (nid : NodeId) (e : SnapshotTickEnv) (st : Role) :
    (snapshot_task nid e st).1 =
      ((is_primary nid e.renv st).1 && !e.backupRunning &&
        (is_binlog_stale e.masterFile e.lastBinlog || !e.ttlPassing)) ∧
    (snapshot_task nid e st).2.1 =
      ((is_primary nid e.renv st).1 && !e.backupRunning) ∧
    (∀ f, (snapshot_task nid
        ⟨e.renv, e.backupRunning, some f, some f, true⟩ st).1 = false) := by
  refine ⟨?_, ?_, ?_⟩
  · rcases h : (is_primary nid e.renv st).1 <;>
      rcases hb : e.backupRunning <;>
      simp [snapshot_task, is_snapshot_node, is_time_for_snapshot, h, hb]
  · rcases h : (is_primary nid e.renv st).1 <;>
      rcases hb : e.backupRunning <;>
      simp [snapshot_task, is_snapshot_node, h, hb]
  · intro f
    rcases h : (is_primary nid e.renv st).1 <;>
      rcases hb : e.backupRunning <;>
      simp [snapshot_task, is_snapshot_node, is_binlog_stale,
        is_time_for_snapshot, h, hb]

/-- Environment of one `create_snapshot` call: which of its fallible steps
fail, in program order. -/
structure SnapEnv where
  /-- whether the non-blocking flock raises IOError (lock contended). -/
  lockContended : Bool
  /-- whether opening `/tmp/backup.tar` raises IOError. -/
  tarOpenFails : Bool
  /-- whether the innobackupex subprocess raises CalledProcessError. -/
  subprocessFails : Bool
  /-- whether the Manta upload raises. -/
  uploadFails : Bool
deriving DecidableEq, Repr

/-- Exceptions that escape `create_snapshot` (IOError does not). -/
inductive SnapErr
  | calledProcessError
  | uploadError
deriving DecidableEq, Repr

/-- How `create_snapshot` ends: `return False` (an IOError was caught),
fall off the end (success), or an uncaught exception propagating to the
caller. -/
inductive SnapOutcome
  | returnedFalse
  | completed
  | raised (e : SnapErr)
deriving DecidableEq, Repr

/-- Observable result of one `create_snapshot` call. -/
structure SnapResult where
  outcome : SnapOutcome
  /-- the finally block always unlocks and closes the lock file. -/
  lockReleased : Bool
  /-- whether the Manta upload was attempted. -/
  uploadAttempted : Bool
  /-- whether LAST_BACKUP_KEY/LAST_BINLOG_KEY were recorded in Consul. -/
  recordedInConsul : Bool
deriving DecidableEq, Repr

/-- `create_snapshot` (lines 295-344).  The body runs under
try/except-IOError/finally: flock contention or a local open failure is
caught and turned into `return False`; a subprocess or upload failure
propagates; the finally block releases the lock on every path; the Consul
markers are written only after a fully successful upload. -/
def create_snapshot (e : SnapEnv) : SnapResult :=
  if e.lockContended then ⟨SnapOutcome.returnedFalse, true, false, false⟩
  else if e.tarOpenFails then ⟨SnapOutcome.returnedFalse, true, false, false⟩
  else if e.subprocessFails then
    ⟨SnapOutcome.raised SnapErr.calledProcessError, true, false, false⟩
  else if e.uploadFails then
    ⟨SnapOutcome.raised SnapErr.uploadError, true, true, false⟩
  else ⟨SnapOutcome.completed, true, true, true⟩

/-- Exit status of the snapshot tick as the supervisor sees it: non-zero
exactly when an exception escapes `create_snapshot` (the caller
`write_snapshot`/`snapshot_task` lets exceptions bubble up and ignores the
return value). -/
def snapshot_tick_fails (e : SnapEnv) : Bool :=
  match (create_snapshot e).outcome with
  | SnapOutcome.raised _ => true
  | _ => false

/-- C8 counterexample: local-lock contention is a backup failure, yet the
tick exits zero — `create_snapshot` catches the IOError and returns False,
which the caller ignores — contradicting the claim that every failure is
surfaced as a non-zero process exit. -/
theorem create_snapshot_ioerror_swallowed :
    create_snapshot ⟨true, false, false, false⟩ =
      ⟨SnapOutcome.returnedFalse, true, false, false⟩ ∧
    snapshot_tick_fails ⟨true, false, false, false⟩ = false := by
  decide

/-- C8 theorem (amended): every failure aborts the backup without retry in
that invocation and nothing is recorded in Consul; but only subprocess and
upload failures propagate as a failed tick (non-zero exit), while
local-lock contention and local I/O failures are caught (`return False`)
and the tick exits zero. -/
theorem create_snapshot_failure_modes (b c d : Bool) :
    (create_snapshot ⟨true, b, c, d⟩).outcome = SnapOutcome.returnedFalse ∧
    snapshot_tick_fails ⟨true, b, c, d⟩ = false ∧
    (create_snapshot ⟨false, true, c, d⟩).outcome = SnapOutcome.returnedFalse ∧
    snapshot_tick_fails ⟨false, true, c, d⟩ = false ∧
    (create_snapshot ⟨false, false, true, d⟩).outcome =
      SnapOutcome.raised SnapErr.calledProcessError ∧
    snapshot_tick_fails ⟨false, false, true, d⟩ = true ∧
    (create_snapshot ⟨false, false, false, true⟩).outcome =
      SnapOutcome.raised SnapErr.uploadError ∧
    snapshot_tick_fails ⟨false, false, false, true⟩ = true ∧
    (create_snapshot ⟨b, c, d, true⟩).recordedInConsul = false ∧
    (create_snapshot ⟨b, c, d, true⟩).lockReleased = true := by
  rcases b <;> rcases c <;> rcases d <;> decide

/-! ## Health handler: `health` (lines 119-160) -/

/-- Under a fixed external environment, a resolution pass that answered
false keeps answering false when repeated from the state it cached. -/
theorem is_primary_false_stable (nid : NodeId) (env : ResolveEnv) (st : Role)
    (h : (is_primary nid env st).1 = false) :
    (is_primary nid env (is_primary nid env st).2.1).1 = false := by
  by_cases hst : st = Role.UNASSIGNED
  · subst hst
    simp only [is_primary, ne_eq, not_true_eq_false, if_false] at h ⊢
    rcases h2 : (resolveRole nid env).2 with _ | _ | _
    · rw [resolveRole_consistent, h2] at h
      simp at h
    · simp [h2]
    · simp [h2, h]
  · simp only [is_primary, ne_eq, hst, not_false_eq_true, if_true] at h ⊢
    exact h

/-- Environment of one `health` invocation. -/
structure HealthEnv where
  /-- environment seen by the `assert_initialized_for_state` gate. -/
  initEnv : InitEnv
  /-- answers for the role resolutions of this tick. -/
  renv : ResolveEnv
  /-- whether `renew_session` and the `select 1` query succeed. -/
  primaryCheckOk : Bool
  /-- whether `show slave status` returns a non-empty (truthy) result. -/
  slaveStatusNonEmpty : Bool
deriving DecidableEq, Repr

/-- How a `health` invocation ends. -/
inductive HealthOutcome
  /-- `sys.exit(1)` inside the init gate. -/
  | initExit
  /-- the init gate returned False, so `health` returned early. -/
  | earlyReturn
  | primaryOk
  /-- session renewal or the `select 1` query raised (non-zero exit). -/
  | primaryFail
  | replicaOk
  /-- `Replica is not replicating.` then `sys.exit(1)`. -/
  | replicaNotReplicating
  /-- `Cannot determine MySQL state` then `sys.exit(1)` (final else). -/
  | cannotDetermine
deriving DecidableEq, Repr

/-- `health` (lines 119-160): run the init gate, then branch on
`is_primary` / `is_replica` with the dedicated UNASSIGNED else at the end. -/
def health (nid : NodeId) (he : HealthEnv) (st : Role) : HealthOutcome × Role :=
  let ir := assert_initialized_for_state nid he.initEnv st
  match ir.outcome with
  | InitOutcome.exitNonZero => (HealthOutcome.initExit, ir.finalState)
  | InitOutcome.proceed => (HealthOutcome.earlyReturn, ir.finalState)
  | InitOutcome.alreadyInitialized =>
      let r1 := is_primary nid he.renv ir.finalState
      if r1.1 then
        (if he.primaryCheckOk then HealthOutcome.primaryOk
         else HealthOutcome.primaryFail, r1.2.1)
      else
        let r2 := is_replica nid he.renv r1.2.1
        if r2.1 then
          (if he.slaveStatusNonEmpty then HealthOutcome.replicaOk
           else HealthOutcome.replicaNotReplicating, r2.2.1)
        else (HealthOutcome.cannotDetermine, r2.2.1)

/-- C10 theorem: `is_replica` is exactly the negation of `is_primary` at
the same state, so a node whose resolution stays UNASSIGNED is classified
as a replica; consequently the health handler's dedicated UNASSIGNED else
branch is unreachable under a fixed per-tick environment — an UNASSIGNED
node takes the replica branch instead (failing there when no replication
stream is reported). -/
theorem is_replica_negation_health_else_unreachable
    (nid : NodeId) (env : ResolveEnv) (st : Role) (he : HealthEnv) :
    (is_replica nid env st).1 = !(is_primary nid env st).1 ∧
    ((is_primary nid env Role.UNASSIGNED).2.1 = Role.UNASSIGNED →
      (is_replica nid env Role.UNASSIGNED).1 = true) ∧
    (health nid he st).1 ≠ HealthOutcome.cannotDetermine ∧
    ((is_primary nid he.renv
        (assert_initialized_for_state nid he.initEnv st).finalState).1 = false →
      he.initEnv.markerExists = true → he.slaveStatusNonEmpty = false →
      (health nid he st).1 = HealthOutcome.replicaNotReplicating) := by
  refine ⟨rfl, ?_, ?_, ?_⟩
  · intro hu
    have h2 : (resolveRole nid env).2 = Role.UNASSIGNED := by
      simpa [is_primary] using hu
    have h1 : (resolveRole nid env).1 = false := by
      rw [resolveRole_consistent, h2]; rfl
    simp [is_replica, is_primary, h1]
  · rcases hio : (assert_initialized_for_state nid he.initEnv st).outcome with _ | _ | _
    · simp only [health]
      rw [hio]
      rcases h1 : (is_primary nid he.renv
          (assert_initialized_for_state nid he.initEnv st).finalState).1 with _ | _
      · have h2 := is_primary_false_stable nid he.renv
          (assert_initialized_for_state nid he.initEnv st).finalState h1
        simp [h1, is_replica, h2]
        split <;> simp
      · simp [h1]
        split <;> simp
    · simp only [health]
      rw [hio]
      simp
    · simp only [health]
      rw [hio]
      simp
  · intro h1 hm hs
    have hio : (assert_initialized_for_state nid he.initEnv st).outcome =
        InitOutcome.alreadyInitialized := by
      simp [assert_initialized_for_state, hm]
    have h2 := is_primary_false_stable nid he.renv
      (assert_initialized_for_state nid he.initEnv st).finalState h1
    simp only [health]
    rw [hio]
    simp [h1, is_replica, h2, hs]

/-- C10 witness: an initialized node under an environment where both
resolution steps are inconclusive stays UNASSIGNED, is classified as a
replica, and the health tick fails in the replica branch, not in the final
else. -/
theorem is_replica_negation_health_else_unreachable_witness :
    (is_replica ⟨"10.0.0.1", "mysql-node-1"⟩
        ⟨MySqlPrimaryRes.err DbErr.mysqlError, ConsulPrimaryRes.ok none⟩
        Role.UNASSIGNED).1 = true ∧
    (health ⟨"10.0.0.1", "mysql-node-1"⟩
        ⟨⟨true, ⟨MySqlPrimaryRes.err DbErr.mysqlError, ConsulPrimaryRes.ok none⟩,
          none, false, none⟩,
         ⟨MySqlPrimaryRes.err DbErr.mysqlError, ConsulPrimaryRes.ok none⟩,
         true, false⟩ Role.UNASSIGNED).1 =
      HealthOutcome.replicaNotReplicating :=
  ⟨(is_replica_negation_health_else_unreachable ⟨"10.0.0.1", "mysql-node-1"⟩
      ⟨MySqlPrimaryRes.err DbErr.mysqlError, ConsulPrimaryRes.ok none⟩
      Role.UNASSIGNED
      ⟨⟨true, ⟨MySqlPrimaryRes.err DbErr.mysqlError, ConsulPrimaryRes.ok none⟩,
        none, false, none⟩,
       ⟨MySqlPrimaryRes.err DbErr.mysqlError, ConsulPrimaryRes.ok none⟩,
       true, false⟩).2.1 (by decide),
   (is_replica_negation_health_else_unreachable ⟨"10.0.0.1", "mysql-node-1"⟩
      ⟨MySqlPrimaryRes.err DbErr.mysqlError, ConsulPrimaryRes.ok none⟩
      Role.UNASSIGNED
      ⟨⟨true, ⟨MySqlPrimaryRes.err DbErr.mysqlError, ConsulPrimaryRes.ok none⟩,
        none, false, none⟩,
       ⟨MySqlPrimaryRes.err DbErr.mysqlError, ConsulPrimaryRes.ok none⟩,
       true, false⟩).2.2.2 (by decide) rfl rfl⟩

end AutopilotMySQL
